import Mathlib

/-!
Verification of the fear-greed-index repository's core behavior.

The development shallowly embeds the Python sources:
  * `fear_greed_index/scrape_cnn.py` (Fetcher),
  * `fear_greed_index/CNNFearAndGreedIndex.py` and
    `fear_greed_index/FearAndGreedIndicator.py` (Model Builder),
  * the derived-metric and presentation functions of `api_server.py`,
    `fgi_cli.py`, `app.py`, and `fgi_mcp_server.py`.

JSON documents decoded by Python's `json.loads` are modelled by the
inductive `Json`; Python runtime errors raised by the translated code
(`AttributeError`, `TypeError`, `ValueError`) are modelled by `PyError`
and fallible code returns `Except PyError _`.  Python floats are
modelled by `ℚ` (every comparison performed by the code is against a
small decimal literal, on which rational and IEEE-754 ordering agree).
-/

namespace FearGreed

/-- A JSON value as decoded by Python's `json.loads`:
`null`, booleans, numbers, strings, arrays, and objects
(an object is a key-value list; Python dicts have unique keys). -/
inductive Json where
  | null : Json
  | bool (b : Bool) : Json
  | num (q : ℚ) : Json
  | str (s : String) : Json
  | arr (elems : List Json) : Json
  | obj (entries : List (String × Json)) : Json
deriving Repr

/-- Python runtime errors that the translated code can raise.
`attributeError` is raised by `.get`/`.replace` on a value of the wrong
type (the spec's `SchemaError` corresponds to `attributeError` raised on
a non-mapping top-level document); `typeError` by arithmetic on a
non-number; `valueError` by `datetime.fromisoformat` on an unparseable
string. -/
inductive PyError where
  | attributeError : PyError
  | typeError : PyError
  | valueError : PyError
deriving Repr, DecidableEq

/-- Python truthiness (`if x:`) of a JSON-decoded value:
`None`, `False`, `0`, `""`, `[]`, `{}` are falsy, everything else truthy. -/
def Json.truthy : Json → Bool
  | .null => false
  | .bool b => b
  | .num q => q ≠ 0
  | .str s => s ≠ ""
  | .arr elems => !elems.isEmpty
  | .obj entries => !entries.isEmpty

/-- Whether the value is a JSON object (a Python dict). -/
def Json.isObj : Json → Bool
  | .obj _ => true
  | _ => false

/-- Key lookup inside an object; `none` when absent or not an object. -/
def Json.lookup? : Json → String → Option Json
  | .obj entries, k => entries.lookup k
  | _, _ => none

/-- Python `x.get(key, default)`: succeeds with the stored value or the
default when `x` is a dict, raises `AttributeError` otherwise. -/
def pyGet (j : Json) (key : String) (dflt : Json) : Except PyError Json :=
  match j with
  | .obj entries => .ok ((entries.lookup key).getD dflt)
  | _ => .error .attributeError

/-- Numeric coercion used by Python arithmetic: numbers are themselves,
booleans are the ints 1/0, everything else is a `TypeError`. -/
def Json.toNumber? : Json → Option ℚ
  | .num q => some q
  | .bool b => some (if b then 1 else 0)
  | _ => none

/-- A Python `datetime` value, by provenance: `civil` from
`datetime.fromisoformat` (calendar fields plus optional UTC offset in
minutes), `fromEpoch` from `datetime.fromtimestamp` (seconds since the
epoch; the conversion to local calendar fields is irrelevant to every
property proved here, so the epoch value is kept). -/
inductive PyDateTime where
  | civil (year month day hour minute second : ℕ) (offsetMinutes : Option ℤ) : PyDateTime
  | fromEpoch (seconds : ℚ) : PyDateTime
deriving Repr, DecidableEq

/-- Decimal digit value of a character. -/
def digitVal (c : Char) : ℕ := c.toNat - 48

/-- Parse exactly two decimal digits. -/
def parse2 : List Char → Option (ℕ × List Char)
  | a :: b :: rest =>
      if a.isDigit ∧ b.isDigit then some (digitVal a * 10 + digitVal b, rest) else none
  | _ => none

/-- Parse exactly four decimal digits. -/
def parse4 : List Char → Option (ℕ × List Char)
  | a :: b :: c :: d :: rest =>
      if a.isDigit ∧ b.isDigit ∧ c.isDigit ∧ d.isDigit then
        some (digitVal a * 1000 + digitVal b * 100 + digitVal c * 10 + digitVal d, rest)
      else none
  | _ => none

/-- Gregorian leap year, as validated by `datetime`. -/
def isLeapYear (y : ℕ) : Bool := (y % 4 = 0 ∧ y % 100 ≠ 0) ∨ y % 400 = 0

/-- Days in a month, as validated by `datetime`. -/
def daysInMonth (y m : ℕ) : ℕ :=
  if m = 2 then (if isLeapYear y then 29 else 28)
  else if m = 4 ∨ m = 6 ∨ m = 9 ∨ m = 11 then 30
  else 31

/-- Drop a fractional-seconds suffix `.ddd…` (at least one digit);
the fractional value itself is irrelevant to every property here. -/
def dropFraction : List Char → Option (List Char)
  | '.' :: c :: rest =>
      if c.isDigit then some (rest.dropWhile Char.isDigit) else none
  | '.' :: [] => none
  | rest => some rest

/-- Parse a trailing UTC offset: nothing, `Z`, or `±HH:MM` / `±HHMM`
(the colon-free form accepted by CPython ≥ 3.11).  The whole remaining
input must be consumed. -/
def parseOffset : List Char → Option (Option ℤ)
  | [] => some none
  | ['Z'] => some (some 0)
  | sign :: rest =>
      if sign = '+' ∨ sign = '-' then
        match parse2 rest with
        | some (h, rest2) =>
            let fin : ℕ → List Char → Option (Option ℤ) := fun m tail =>
              match tail with
              | [] =>
                  if h < 24 ∧ m < 60 then
                    some (some ((if sign = '-' then -1 else 1) * (h * 60 + m : ℕ)))
                  else none
              | _ => none
            match rest2 with
            | ':' :: rest3 =>
                match parse2 rest3 with
                | some (m, tail) => fin m tail
                | none => none
            | _ =>
                match parse2 rest2 with
                | some (m, tail) => fin m tail
                | none => none
        | none => none
      else none

/-- Parse `HH:MM[:SS[.fff]]` followed by an optional offset. -/
def parseTime (cs : List Char) : Option (ℕ × ℕ × ℕ × Option ℤ) :=
  match parse2 cs with
  | some (h, ':' :: rest) =>
      match parse2 rest with
      | some (mi, rest2) =>
          let withSec : ℕ → List Char → Option (ℕ × ℕ × ℕ × Option ℤ) := fun sec tail =>
            if h < 24 ∧ mi < 60 ∧ sec < 60 then
              match dropFraction tail with
              | some tail2 =>
                  match parseOffset tail2 with
                  | some off => some (h, mi, sec, off)
                  | none => none
              | none => none
            else none
          match rest2 with
          | ':' :: rest3 =>
              match parse2 rest3 with
              | some (sec, tail) => withSec sec tail
              | none => none
          | _ =>
              if h < 24 ∧ mi < 60 then
                match parseOffset rest2 with
                | some off => some (h, mi, 0, off)
                | none => none
              else none
      | none => none
  | _ => none

/-- Model of `datetime.fromisoformat` of CPython ≥ 3.11, for the
extended format `YYYY-MM-DD[<sep>HH:MM[:SS[.fff]]][offset]` that the
repository's inputs use (the basic digits-only format is not needed by
any caller and is not modelled).  Calendar fields are range-checked the
way `datetime` checks them; `none` models a raised `ValueError`. -/
def fromisoformat (s : String) : Option PyDateTime :=
  match parse4 s.data with
  | some (y, '-' :: rest) =>
      match parse2 rest with
      | some (m, '-' :: rest2) =>
          match parse2 rest2 with
          | some (d, rest3) =>
              if 1 ≤ y ∧ y ≤ 9999 ∧ 1 ≤ m ∧ m ≤ 12 ∧ 1 ≤ d ∧ d ≤ daysInMonth y m then
                match rest3 with
                | [] => some (.civil y m d 0 0 0 none)
                | _sep :: timecs =>
                    match parseTime timecs with
                    | some (h, mi, sec, off) => some (.civil y m d h mi sec off)
                    | none => none
              else none
          | _ => none
      | _ => none
  | _ => none

/-- Fuel-indexed engine of Python's `str.replace`: replace each
non-overlapping occurrence of `pat` left to right.  The fuel (always
instantiated with the string length, which bounds the number of steps)
only makes the recursion structural; it is never exhausted. -/
def charsReplaceAux : ℕ → List Char → List Char → List Char → List Char
  | 0, s, _, _ => s
  | _ + 1, [], _, _ => []
  | fuel + 1, c :: rest, pat, rep =>
      if pat ≠ [] ∧ pat.isPrefixOf (c :: rest) then
        rep ++ charsReplaceAux fuel ((c :: rest).drop pat.length) pat rep
      else
        c :: charsReplaceAux fuel rest pat rep

/-- Python's `s.replace(pat, rep)` for a non-empty pattern: all
non-overlapping occurrences, scanned left to right.  (The empty-pattern
case never occurs in this repository.) -/
def pyReplace (s pat rep : String) : String :=
  ⟨charsReplaceAux s.data.length s.data pat.data rep.data⟩

/-- Python's `s.lower()` (ASCII range; every name and query in this
repository is ASCII). -/
def pyLower (s : String) : String :=
  ⟨s.data.map Char.toLower⟩

/-- One named sub-indicator, mirroring `FearAndGreedIndicator`'s
attributes.  `score`, `rating` and `historical_data` hold the raw JSON
values the Python code stores (with the constructor's defaults `0.0`,
`"N/A"`, `[]` modelled as the corresponding JSON values). -/
structure Indicator where
  name : String
  score : Json
  rating : Json
  timestamp : Option PyDateTime
  historical_data : Json
deriving Repr

/-- The attribute values set by `FearAndGreedIndicator.__init__` before
any data is loaded. -/
def defaultIndicator (name : String) : Indicator :=
  ⟨name, .num 0, .str "N/A", none, .arr []⟩

/-- Conservative model of `datetime.fromtimestamp` on epoch seconds:
the real call raises (`ValueError`/`OverflowError`/`OSError`) for
epochs outside the representable datetime range, a boundary that
depends on the platform and the local timezone (negative epochs fail
on Windows; the upper bound is `datetime.max` shifted by the local UTC
offset).  The model therefore accepts the sub-range from the epoch up
to one day short of `datetime.max` in UTC — on which every platform
succeeds — and signals `ValueError` outside it. -/
def pyFromtimestamp (seconds : ℚ) : Except PyError PyDateTime :=
  if 0 ≤ seconds ∧ seconds ≤ 253402214400 then .ok (.fromEpoch seconds)
  else .error .valueError

/-- Lines 49-51 of `FearAndGreedIndicator._load_from_data`: an absent
or falsy `timestamp` stays `None`; otherwise the millisecond epoch is
divided by 1000 (a `TypeError` on a non-number) and passed to
`datetime.fromtimestamp`, which fails on an out-of-range epoch. -/
def parseIndicatorTimestamp (timestamp_ms : Json) : Except PyError (Option PyDateTime) :=
  if timestamp_ms.truthy then
    match timestamp_ms.toNumber? with
    | some q =>
        match pyFromtimestamp (q / 1000) with
        | .ok dt => .ok (some dt)
        | .error e => .error e
    | none => .error .typeError
  else .ok none

/-- Model of `FearAndGreedIndicator(name, data)`: keep the constructor
defaults when `data` is falsy, otherwise run `_load_from_data`, which
reads `score`, `rating`, `timestamp` and `data` with `dict.get`
defaults. -/
def mkIndicator (name : String) (data : Json) : Except PyError Indicator :=
  if data.truthy then do
    let score ← pyGet data "score" (.num 0)
    let rating ← pyGet data "rating" (.str "N/A")
    let timestamp_ms ← pyGet data "timestamp" .null
    let timestamp ← parseIndicatorTimestamp timestamp_ms
    let historical ← pyGet data "data" (.arr [])
    pure ⟨name, score, rating, timestamp, historical⟩
  else pure (defaultIndicator name)

/-- The normalized snapshot, mirroring `CNNFearAndGreedIndex`'s
attributes.  Raw JSON values are stored exactly as the Python code
stores them. -/
structure CompositeIndex where
  score : Json
  rating : Json
  previous_close : Json
  previous_1_week : Json
  previous_1_month : Json
  previous_1_year : Json
  timestamp : Option PyDateTime
  historical_data : Json
  junk_bond_demand : Indicator
  market_volatility : Indicator
  put_call_options : Indicator
  market_momentum : Indicator
  stock_price_strength : Indicator
  stock_price_breadth : Indicator
  safe_haven_demand : Indicator
deriving Repr

/-- The 7 canonical indicator names of `_INDICATOR_MAP`, in the fixed
order of the `all_indicators` property. -/
def canonicalNames : List String :=
  ["Junk Bond Demand", "Market Volatility (VIX)", "Put and Call Options",
   "Market Momentum (S&P 500)", "Stock Price Strength", "Stock Price Breadth",
   "Safe Haven Demand"]

/-- Lines 92-94 of `_load_fear_and_greed`: an absent or falsy
`timestamp` stays `None`; otherwise the string has `"+00:00"` replaced
by `"+0000"` and is passed to `datetime.fromisoformat` (a
`ValueError` on an unparseable string; `.replace` on a non-string
raises `AttributeError`). -/
def parseCompositeTimestamp (timestamp_str : Json) : Except PyError (Option PyDateTime) :=
  if timestamp_str.truthy then
    match timestamp_str with
    | .str s =>
        match fromisoformat (pyReplace s "+00:00" "+0000") with
        | some dt => .ok (some dt)
        | none => .error .valueError
    | _ => .error .attributeError
  else .ok none

/-- One indicator-loading line of `_load_fear_and_greed`:
`FearAndGreedIndicator(self._INDICATOR_MAP[key], data.get(key))`. -/
def loadIndicator (data : Json) (key name : String) : Except PyError Indicator := do
  let raw ← pyGet data key .null
  mkIndicator name raw

/-- Model of `CNNFearAndGreedIndex._load_fear_and_greed`, as a function
of the already-fetched raw document: extract the composite fields from
`"fear_and_greed"` with `dict.get` defaults, parse the timestamp after
replacing `"+00:00"` with `"+0000"`, extract the historical series from
`"fear_and_greed_historical" → "data"`, and build the 7 indicators from
their fixed keys. -/
def _load_fear_and_greed (data : Json) : Except PyError CompositeIndex := do
  let fg_data ← pyGet data "fear_and_greed" (.obj [])
  let score ← pyGet fg_data "score" (.num 0)
  let rating ← pyGet fg_data "rating" (.str "N/A")
  let previous_close ← pyGet fg_data "previous_close" (.num 0)
  let previous_1_week ← pyGet fg_data "previous_1_week" (.num 0)
  let previous_1_month ← pyGet fg_data "previous_1_month" (.num 0)
  let previous_1_year ← pyGet fg_data "previous_1_year" (.num 0)
  let timestamp_str ← pyGet fg_data "timestamp" .null
  let timestamp ← parseCompositeTimestamp timestamp_str
  let fg_historical ← pyGet data "fear_and_greed_historical" (.obj [])
  let historical_data ← pyGet fg_historical "data" (.arr [])
  let junk_bond_demand ← loadIndicator data "junk_bond_demand" "Junk Bond Demand"
  let market_volatility ← loadIndicator data "market_volatility_vix" "Market Volatility (VIX)"
  let put_call_options ← loadIndicator data "put_call_options" "Put and Call Options"
  let market_momentum ← loadIndicator data "market_momentum_sp500" "Market Momentum (S&P 500)"
  let stock_price_strength ← loadIndicator data "stock_price_strength" "Stock Price Strength"
  let stock_price_breadth ← loadIndicator data "stock_price_breadth" "Stock Price Breadth"
  let safe_haven_demand ← loadIndicator data "safe_haven_demand" "Safe Haven Demand"
  pure ⟨score, rating, previous_close, previous_1_week, previous_1_month,
        previous_1_year, timestamp, historical_data, junk_bond_demand,
        market_volatility, put_call_options, market_momentum,
        stock_price_strength, stock_price_breadth, safe_haven_demand⟩

/-- The `all_indicators` property: the 7 indicators as a list, in the
fixed order of the source. -/
def all_indicators (c : CompositeIndex) : List Indicator :=
  [c.junk_bond_demand, c.market_volatility, c.put_call_options,
   c.market_momentum, c.stock_price_strength, c.stock_price_breadth,
   c.safe_haven_demand]

/-- The `get_historical_data` method: returns the stored series. -/
def get_historical_data (c : CompositeIndex) : Json :=
  c.historical_data

/-- Contiguous-sublist test on character lists (used to model Python's
`in` on strings): the needle is a prefix of some suffix of the
haystack. -/
def charsContains (needle : List Char) : List Char → Bool
  | [] => needle.isPrefixOf []
  | c :: rest => needle.isPrefixOf (c :: rest) || charsContains needle rest

/-- Python's substring test `sub in s`. -/
def pyIn (sub s : String) : Bool :=
  charsContains sub.data s.data

/-- Python's `xs[-limit:]` for an arbitrary integer `limit`: the slice
start index is `-limit`; a negative start is clamped as
`max(len + start, 0)`, a non-negative one as `min(start, len)`. -/
def pyNegSlice (limit : ℤ) (xs : List Json) : List Json :=
  if -limit < 0 then xs.drop (xs.length + -limit).toNat
  else xs.drop (min (-limit).toNat xs.length)

/-- A network-level failure of the single HTTP GET. -/
inductive NetworkFailure where
  | timeout : NetworkFailure
  | connectionError : NetworkFailure
deriving Repr, DecidableEq

/-- The outcome of the single HTTP GET issued by `requests.get`:
either a network failure (timeout / connection error), or a response
with a status code and a body (`none` models a body that is not valid
JSON, on which `response.json()` raises). -/
inductive HttpOutcome where
  | failure (cause : NetworkFailure) : HttpOutcome
  | response (status : ℕ) (body : Option Json) : HttpOutcome
deriving Repr

/-- Errors the Fetcher can raise: the spec's `TransportError` (carrying
an HTTP status from `raise_for_status`, or the underlying network
cause), and `MalformedResponseError` from `response.json()`. -/
inductive FetchError where
  | transportStatus (status : ℕ) : FetchError
  | transportNetwork (cause : NetworkFailure) : FetchError
  | malformedResponse : FetchError
deriving Repr, DecidableEq

/-- The `timeout=30` argument of the single `requests.get` call in
`scrape_cnn._get_fear_greed_data` (seconds). -/
def requestTimeoutSeconds : ℕ := 30

/-- Model of `scrape_cnn._get_fear_greed_data`, as a function of the outcome of
its one HTTP GET: a network failure propagates as a transport error;
`response.raise_for_status()` raises exactly for status codes in
[400, 600) (the `requests` library raises `HTTPError` for 4xx/5xx
only); otherwise `response.json()` returns the decoded body or raises
on undecodable JSON.  No retry is modelled because the source makes a
single call. -/
def _get_fear_greed_data : HttpOutcome → Except FetchError Json
  | .failure cause => .error (.transportNetwork cause)
  | .response status body =>
      if 400 ≤ status ∧ status < 600 then .error (.transportStatus status)
      else
        match body with
        | some j => .ok j
        | none => .error .malformedResponse

/-- Model of `CNNFearAndGreedIndex.__init__`: fetch, then build.  A fetch error
aborts before any model building; a build error aborts without
producing a snapshot. -/
def mkCNNFearAndGreedIndex (o : HttpOutcome) : Except (FetchError ⊕ PyError) CompositeIndex :=
  match _get_fear_greed_data o with
  | .error e => .error (.inl e)
  | .ok data =>
      match _load_fear_and_greed data with
      | .error e => .error (.inr e)
      | .ok c => .ok c

namespace Api

/-- Classification of `api_server.get_trading_signal`: the
(signal, recommendation) pair computed from the score.  (Python
compares the stored score with numeric literals; a non-numeric score
would raise `TypeError`, so the function is modelled on numbers.) -/
def get_trading_signal (score : ℚ) : String × String :=
  if score < 20 then ("STRONG_BUY", "Extreme fear - potential buying opportunity")
  else if score < 40 then ("BUY", "Fear in market - consider accumulating")
  else if score < 60 then ("HOLD", "Neutral sentiment - maintain positions")
  else if score < 80 then ("SELL", "Greed in market - consider taking profits")
  else ("STRONG_SELL", "Extreme greed - potential market top")

/-- The `for ind in fgi.all_indicators` loop of
`api_server.get_indicator`: return the first indicator whose lowercased
name contains the query, else fall through to the not-found branch. -/
def findLoop (name_lower : String) : List Indicator → Option Indicator
  | [] => none
  | ind :: rest =>
      if pyIn name_lower (pyLower ind.name) then some ind
      else findLoop name_lower rest

/-- Model of `api_server.get_indicator`: lowercase the query, replace
underscores and hyphens with spaces, and scan `all_indicators` in
order; `some` models the found-indicator response, `none` the
`{"error": ...}` not-found response. -/
def get_indicator (c : CompositeIndex) (name : String) : Option Indicator :=
  let name_lower := pyReplace (pyReplace (pyLower name) "_" " ") "-" " "
  findLoop name_lower (all_indicators c)

/-- The history-limiting step of `api_server.get_historical`:
`fgi.get_historical_data()[-limit:]`.  Slicing a non-list raises
`TypeError`; the per-point date formatting that follows is
presentation and changes neither the number nor the order of points. -/
def get_historical (c : CompositeIndex) (limit : ℤ) : Except PyError (List Json) :=
  match get_historical_data c with
  | .arr xs => .ok (pyNegSlice limit xs)
  | _ => .error .typeError

end Api

namespace Cli

/-- Model of `fgi_cli.get_color_for_score`. -/
def get_color_for_score (score : ℚ) : String :=
  if score < 25 then "red"
  else if score < 45 then "orange1"
  else if score < 55 then "yellow"
  else if score < 75 then "green"
  else "dark_green"

/-- Model of `fgi_cli.get_emoji_for_score`.  The returned strings are the exact
character sequences present in the source file (which stores
double-encoded emoji), written here with unicode escapes. -/
def get_emoji_for_score (score : ℚ) : String :=
  if score < 25 then "\u00F0\u0178\u201D\u00B4"
  else if score < 45 then "\u00F0\u0178\u0178\u00A0"
  else if score < 55 then "\u00F0\u0178\u0178\u00A1"
  else if score < 75 then "\u00F0\u0178\u0178\u00A2"
  else "\u00F0\u0178\u2019\u0161"

/-- The classification performed by the `signal` command of
`fgi_cli.py`: (signal, recommendation, color, emoji) as assigned by its
if/elif chain. -/
def signal (score : ℚ) : String × String × String × String :=
  if score < 20 then
    ("STRONG BUY", "Extreme fear - potential buying opportunity", "green",
     "\u00F0\u0178\u0161\u20AC")
  else if score < 40 then
    ("BUY", "Fear in market - consider accumulating", "green",
     "\u00F0\u0178\u201C\u02C6")
  else if score < 60 then
    ("HOLD", "Neutral sentiment - maintain positions", "yellow",
     "\u00E2\u00B8\u00EF\u00B8")
  else if score < 80 then
    ("SELL", "Greed in market - consider taking profits", "orange1",
     "\u00F0\u0178\u201C\u2030")
  else
    ("STRONG SELL", "Extreme greed - potential market top", "red",
     "\u00F0\u0178\u203A\u2018")

/-- The history-limiting step of the `history` command:
`fgi.get_historical_data()[-limit:]` (the subsequent `reversed(...)` is
display order only and is applied to the already-sliced list). -/
def history_points (c : CompositeIndex) (limit : ℤ) : Except PyError (List Json) :=
  match get_historical_data c with
  | .arr xs => .ok (pyNegSlice limit xs)
  | _ => .error .typeError

end Cli

namespace App

/-- Model of `app.get_color_for_score` (the Streamlit dashboard's banding). -/
def get_color_for_score (score : ℚ) : String :=
  if score < 25 then "#8B0000"
  else if score < 45 then "#FF4500"
  else if score < 55 then "#FFD700"
  else if score < 75 then "#32CD32"
  else "#006400"

end App

/-- The per-score color assignment of the loop inside
`CNNFearAndGreedIndex.plot_all_indicators` (and repeated verbatim in
`plot_all_charts`). -/
def plot_all_indicators_color (score : ℚ) : String :=
  if score < 25 then "#8B0000"
  else if score < 45 then "#FF4500"
  else if score < 55 then "#FFD700"
  else if score < 75 then "#90EE90"
  else "#006400"

namespace Mcp

/-- The history-limiting step of the `get_fear_greed_history` tool:
`fgi.get_historical_data()[-days:]` with `days` defaulting to 10. -/
def get_fear_greed_history_points (c : CompositeIndex) (days : ℤ) : Except PyError (List Json) :=
  match get_historical_data c with
  | .arr xs => .ok (pyNegSlice days xs)
  | _ => .error .typeError

end Mcp

/-- Well-formedness of a composite timestamp value: falsy (left alone),
or a string that `fromisoformat` accepts after the `"+00:00"`
normalization.  Spec-side predicate used to characterize exactly when
the builder cannot fail. -/
def wfTimestampStr (t : Json) : Bool :=
  !t.truthy ||
    (match t with
     | .str s => (fromisoformat (pyReplace s "+00:00" "+0000")).isSome
     | _ => false)

/-- Well-formedness of the optional `"fear_and_greed"` sub-object: when
present it must be a dict whose timestamp field (if any) is
parseable. -/
def wfFearGreed : Option Json → Bool
  | none => true
  | some (.obj fgEntries) => wfTimestampStr ((fgEntries.lookup "timestamp").getD .null)
  | some _ => false

/-- Well-formedness of the optional `"fear_and_greed_historical"`
sub-object: when present it must be a dict. -/
def wfHistorical : Option Json → Bool
  | none => true
  | some v => v.isObj

/-- Well-formedness of an indicator timestamp value: falsy, or a
number whose epoch `datetime.fromtimestamp` accepts. -/
def wfIndicatorTimestamp (t : Json) : Bool :=
  !t.truthy ||
    (match t.toNumber? with
     | some q =>
         match pyFromtimestamp (q / 1000) with
         | .ok _ => true
         | .error _ => false
     | none => false)

/-- Well-formedness of an optional indicator sub-object: absent or
falsy (defaults are used), or a dict whose timestamp field (if any) is
numeric. -/
def wfIndicator : Option Json → Bool
  | none => true
  | some v =>
      !v.truthy ||
        (match v with
         | .obj es => wfIndicatorTimestamp ((es.lookup "timestamp").getD .null)
         | _ => false)

/-- Well-formedness of a raw document given as a mapping: each of the
nine sub-objects the builder touches is either missing or itself
well-formed.  Missing keys are always well-formed, so this predicate
isolates failure to malformed *present* fields. -/
def wellFormedDoc (entries : List (String × Json)) : Bool :=
  wfFearGreed (entries.lookup "fear_and_greed") &&
  wfHistorical (entries.lookup "fear_and_greed_historical") &&
  wfIndicator (entries.lookup "junk_bond_demand") &&
  wfIndicator (entries.lookup "market_volatility_vix") &&
  wfIndicator (entries.lookup "put_call_options") &&
  wfIndicator (entries.lookup "market_momentum_sp500") &&
  wfIndicator (entries.lookup "stock_price_strength") &&
  wfIndicator (entries.lookup "stock_price_breadth") &&
  wfIndicator (entries.lookup "safe_haven_demand")

/-- The snapshot produced from an empty raw document: every field at
its documented default, all 7 indicators defaulted. -/
def emptyDocSnapshot : CompositeIndex :=
  ⟨.num 0, .str "N/A", .num 0, .num 0, .num 0, .num 0, none, .arr [],
   defaultIndicator "Junk Bond Demand",
   defaultIndicator "Market Volatility (VIX)",
   defaultIndicator "Put and Call Options",
   defaultIndicator "Market Momentum (S&P 500)",
   defaultIndicator "Stock Price Strength",
   defaultIndicator "Stock Price Breadth",
   defaultIndicator "Safe Haven Demand"⟩

/-- A concrete snapshot holding the 3-point series 1, 2, 3, used as an
evaluation input. -/
def threePointSnapshot : CompositeIndex :=
  ⟨.num 0, .str "N/A", .num 0, .num 0, .num 0, .num 0, none,
   .arr [.num 1, .num 2, .num 3],
   defaultIndicator "Junk Bond Demand",
   defaultIndicator "Market Volatility (VIX)",
   defaultIndicator "Put and Call Options",
   defaultIndicator "Market Momentum (S&P 500)",
   defaultIndicator "Stock Price Strength",
   defaultIndicator "Stock Price Breadth",
   defaultIndicator "Safe Haven Demand"⟩

/-! ## Helper lemmas -/

/-- Reduction of an `Except` bind on a success. -/
@[simp] theorem ok_bind {ε α β : Type} (a : α) (f : α → Except ε β) :
    (Except.ok a >>= f) = f a := rfl

/-- Reduction of an `Except` bind on an error. -/
@[simp] theorem error_bind {ε α β : Type} (e : ε) (f : α → Except ε β) :
    ((Except.error e : Except ε α) >>= f) = .error e := rfl

/-- Inversion of a successful `Except` bind. -/
theorem bind_eq_ok {ε α β : Type} {x : Except ε α} {f : α → Except ε β} {b : β}
    (h : x >>= f = .ok b) : ∃ a, x = .ok a ∧ f a = .ok b := by
  cases x with
  | ok a => exact ⟨a, rfl, h⟩
  | error e => rw [error_bind] at h; exact Except.noConfusion h

/-- Inversion of a successful `pyGet`: the receiver was a dict and the
result is the stored value or the default. -/
theorem pyGet_ok_inv {j : Json} {k : String} {d v : Json}
    (h : pyGet j k d = .ok v) :
    ∃ entries, j = .obj entries ∧ v = (entries.lookup k).getD d := by
  cases j with
  | obj entries =>
      refine ⟨entries, rfl, ?_⟩
      have := Except.ok.inj h
      exact this.symm
  | null => exact Except.noConfusion h
  | bool b => exact Except.noConfusion h
  | num q => exact Except.noConfusion h
  | str s => exact Except.noConfusion h
  | arr elems => exact Except.noConfusion h

/-- Reduction of `pure` in the `Except` monad. -/
@[simp] theorem pure_eq_ok {ε α : Type} (a : α) :
    (pure a : Except ε α) = .ok a := rfl

/-- An indicator successfully built by `mkIndicator` carries the name
it was given. -/
theorem mkIndicator_name {n : String} {d : Json} {i : Indicator}
    (h : mkIndicator n d = .ok i) : i.name = n := by
  unfold mkIndicator at h
  split at h
  · obtain ⟨score, hs, h⟩ := bind_eq_ok h
    obtain ⟨rating, hr, h⟩ := bind_eq_ok h
    obtain ⟨tms, ht, h⟩ := bind_eq_ok h
    obtain ⟨ts, hts, h⟩ := bind_eq_ok h
    obtain ⟨hist, hh, h⟩ := bind_eq_ok h
    rw [pure_eq_ok] at h
    cases h
    rfl
  · rw [pure_eq_ok] at h
    cases h
    rfl

/-- An indicator successfully built by `loadIndicator` carries the name
it was given. -/
theorem loadIndicator_name {data : Json} {key n : String} {i : Indicator}
    (h : loadIndicator data key n = .ok i) : i.name = n := by
  unfold loadIndicator at h
  obtain ⟨raw, hr, h⟩ := bind_eq_ok h
  exact mkIndicator_name h

/-- A missing indicator key loads the defaulted placeholder
indicator. -/
theorem loadIndicator_missing {entries : List (String × Json)} {key n : String}
    (h : entries.lookup key = none) :
    loadIndicator (.obj entries) key n = .ok (defaultIndicator n) := by
  unfold loadIndicator
  simp only [pyGet, h, Option.getD_none, ok_bind]
  rfl

/-- Full inversion of a successful model build: the document was a
mapping, the `"fear_and_greed"` and `"fear_and_greed_historical"`
values (or their `{}` defaults) were mappings, and every stored field
is the corresponding looked-up value or its documented default. -/
theorem load_ok_inv {data : Json} {c : CompositeIndex}
    (h : _load_fear_and_greed data = .ok c) :
    ∃ entries fgE hE,
      data = .obj entries ∧
      (entries.lookup "fear_and_greed").getD (.obj []) = .obj fgE ∧
      c.score = (fgE.lookup "score").getD (.num 0) ∧
      c.rating = (fgE.lookup "rating").getD (.str "N/A") ∧
      c.previous_close = (fgE.lookup "previous_close").getD (.num 0) ∧
      c.previous_1_week = (fgE.lookup "previous_1_week").getD (.num 0) ∧
      c.previous_1_month = (fgE.lookup "previous_1_month").getD (.num 0) ∧
      c.previous_1_year = (fgE.lookup "previous_1_year").getD (.num 0) ∧
      parseCompositeTimestamp ((fgE.lookup "timestamp").getD .null) = .ok c.timestamp ∧
      (entries.lookup "fear_and_greed_historical").getD (.obj []) = .obj hE ∧
      c.historical_data = (hE.lookup "data").getD (.arr []) ∧
      loadIndicator (.obj entries) "junk_bond_demand" "Junk Bond Demand" =
        .ok c.junk_bond_demand ∧
      loadIndicator (.obj entries) "market_volatility_vix" "Market Volatility (VIX)" =
        .ok c.market_volatility ∧
      loadIndicator (.obj entries) "put_call_options" "Put and Call Options" =
        .ok c.put_call_options ∧
      loadIndicator (.obj entries) "market_momentum_sp500" "Market Momentum (S&P 500)" =
        .ok c.market_momentum ∧
      loadIndicator (.obj entries) "stock_price_strength" "Stock Price Strength" =
        .ok c.stock_price_strength ∧
      loadIndicator (.obj entries) "stock_price_breadth" "Stock Price Breadth" =
        .ok c.stock_price_breadth ∧
      loadIndicator (.obj entries) "safe_haven_demand" "Safe Haven Demand" =
        .ok c.safe_haven_demand := by
  unfold _load_fear_and_greed at h
  obtain ⟨fg_data, h0, h⟩ := bind_eq_ok h
  obtain ⟨score, h1, h⟩ := bind_eq_ok h
  obtain ⟨rating, h2, h⟩ := bind_eq_ok h
  obtain ⟨pc, h3, h⟩ := bind_eq_ok h
  obtain ⟨p1w, h4, h⟩ := bind_eq_ok h
  obtain ⟨p1m, h5, h⟩ := bind_eq_ok h
  obtain ⟨p1y, h6, h⟩ := bind_eq_ok h
  obtain ⟨ts_str, h7, h⟩ := bind_eq_ok h
  obtain ⟨ts, h8, h⟩ := bind_eq_ok h
  obtain ⟨fg_hist, h9, h⟩ := bind_eq_ok h
  obtain ⟨hist, h10, h⟩ := bind_eq_ok h
  obtain ⟨i1, k1, h⟩ := bind_eq_ok h
  obtain ⟨i2, k2, h⟩ := bind_eq_ok h
  obtain ⟨i3, k3, h⟩ := bind_eq_ok h
  obtain ⟨i4, k4, h⟩ := bind_eq_ok h
  obtain ⟨i5, k5, h⟩ := bind_eq_ok h
  obtain ⟨i6, k6, h⟩ := bind_eq_ok h
  obtain ⟨i7, k7, h⟩ := bind_eq_ok h
  replace h := Except.ok.inj h
  subst h
  obtain ⟨entries, hdata, hfg⟩ := pyGet_ok_inv h0
  subst hdata
  obtain ⟨fgE, hfgE, hscore⟩ := pyGet_ok_inv h1
  rw [hfgE] at h2 h3 h4 h5 h6 h7
  simp only [pyGet, Except.ok.injEq] at h2 h3 h4 h5 h6 h7 h9
  obtain ⟨hE, hhE, hhist⟩ := pyGet_ok_inv h10
  refine ⟨entries, fgE, hE, rfl, hfg.symm.trans hfgE, hscore, h2.symm, h3.symm,
          h4.symm, h5.symm, h6.symm, ?_, h9.trans hhE, hhist,
          k1, k2, k3, k4, k5, k6, k7⟩
  rw [h7]; exact h8
/-- Every successful build yields exactly 7 indicators bearing the
canonical names in the fixed order. -/
theorem load_ok_names {data : Json} {c : CompositeIndex}
    (h : _load_fear_and_greed data = .ok c) :
    (all_indicators c).length = 7 ∧
    (all_indicators c).map Indicator.name = canonicalNames := by
  obtain ⟨entries, fgE, hE, _, _, _, _, _, _, _, _, _, _, _,
          kj, km, kp, kmm, ks, kb, ksh⟩ := load_ok_inv h
  refine ⟨rfl, ?_⟩
  simp only [all_indicators, List.map, canonicalNames,
             loadIndicator_name kj, loadIndicator_name km,
             loadIndicator_name kp, loadIndicator_name kmm,
             loadIndicator_name ks, loadIndicator_name kb,
             loadIndicator_name ksh]

/-! ## C1: trading-signal banding -/

/-- C1: for every score `s`, trading-signal classification (REST
`get_trading_signal` and the CLI `signal` command) is a total 5-band
step function with half-open-low boundaries at 20, 40, 60, 80 —
STRONG_BUY below 20, BUY on [20,40), HOLD on [40,60), SELL on [60,80),
STRONG_SELL from 80 — each band carrying its fixed recommendation
string; in particular the score 20 classifies as BUY, not STRONG_BUY,
and 40 as HOLD. -/
theorem C1_trading_signal_bands :
    (∀ s : ℚ,
      (s < 20 →
        Api.get_trading_signal s =
          ("STRONG_BUY", "Extreme fear - potential buying opportunity") ∧
        (Cli.signal s).1 = "STRONG BUY" ∧
        (Cli.signal s).2.1 = "Extreme fear - potential buying opportunity") ∧
      (20 ≤ s → s < 40 →
        Api.get_trading_signal s =
          ("BUY", "Fear in market - consider accumulating") ∧
        (Cli.signal s).1 = "BUY" ∧
        (Cli.signal s).2.1 = "Fear in market - consider accumulating") ∧
      (40 ≤ s → s < 60 →
        Api.get_trading_signal s =
          ("HOLD", "Neutral sentiment - maintain positions") ∧
        (Cli.signal s).1 = "HOLD" ∧
        (Cli.signal s).2.1 = "Neutral sentiment - maintain positions") ∧
      (60 ≤ s → s < 80 →
        Api.get_trading_signal s =
          ("SELL", "Greed in market - consider taking profits") ∧
        (Cli.signal s).1 = "SELL" ∧
        (Cli.signal s).2.1 = "Greed in market - consider taking profits") ∧
      (80 ≤ s →
        Api.get_trading_signal s =
          ("STRONG_SELL", "Extreme greed - potential market top") ∧
        (Cli.signal s).1 = "STRONG SELL" ∧
        (Cli.signal s).2.1 = "Extreme greed - potential market top")) ∧
    Api.get_trading_signal 20 =
      ("BUY", "Fear in market - consider accumulating") ∧
    Api.get_trading_signal 40 =
      ("HOLD", "Neutral sentiment - maintain positions") ∧
    (Cli.signal 20).1 = "BUY" ∧ (Cli.signal 40).1 = "HOLD" := by
  refine ⟨fun s => ⟨?_, ?_, ?_, ?_, ?_⟩, ?_, ?_, ?_, ?_⟩
  · intro h1
    refine ⟨?_, ?_, ?_⟩ <;>
      (simp only [Api.get_trading_signal, Cli.signal];
       split_ifs <;> first | rfl | (exfalso; linarith))
  · intro h1 h2
    refine ⟨?_, ?_, ?_⟩ <;>
      (simp only [Api.get_trading_signal, Cli.signal];
       split_ifs <;> first | rfl | (exfalso; linarith))
  · intro h1 h2
    refine ⟨?_, ?_, ?_⟩ <;>
      (simp only [Api.get_trading_signal, Cli.signal];
       split_ifs <;> first | rfl | (exfalso; linarith))
  · intro h1 h2
    refine ⟨?_, ?_, ?_⟩ <;>
      (simp only [Api.get_trading_signal, Cli.signal];
       split_ifs <;> first | rfl | (exfalso; linarith))
  · intro h1
    refine ⟨?_, ?_, ?_⟩ <;>
      (simp only [Api.get_trading_signal, Cli.signal];
       split_ifs <;> first | rfl | (exfalso; linarith))
  · simp only [Api.get_trading_signal]; norm_num
  · simp only [Api.get_trading_signal]; norm_num
  · simp only [Cli.signal]; norm_num
  · simp only [Cli.signal]; norm_num

/-- Witness for C1 at concrete scores 10 and 70. -/
theorem C1_trading_signal_bands_witness :
    Api.get_trading_signal 10 =
      ("STRONG_BUY", "Extreme fear - potential buying opportunity") ∧
    Api.get_trading_signal 70 =
      ("SELL", "Greed in market - consider taking profits") :=
  ⟨((C1_trading_signal_bands.1 10).1 (by norm_num)).1,
   ((C1_trading_signal_bands.1 70).2.2.2.1 (by norm_num) (by norm_num)).1⟩

/-! ## C2: severity banding -/

/-- C2: for every score `s`, severity banding is a total 5-band step
function with boundaries at 25, 45, 55, 75, and every front-end banding
function — the CLI color and emoji, the web dashboard color, and the
chart bar color — uses these same boundaries. -/
theorem C2_severity_bands :
    ∀ s : ℚ,
      (s < 25 →
        Cli.get_color_for_score s = "red" ∧
        Cli.get_emoji_for_score s = "\u00F0\u0178\u201D\u00B4" ∧
        App.get_color_for_score s = "#8B0000" ∧
        plot_all_indicators_color s = "#8B0000") ∧
      (25 ≤ s → s < 45 →
        Cli.get_color_for_score s = "orange1" ∧
        Cli.get_emoji_for_score s = "\u00F0\u0178\u0178\u00A0" ∧
        App.get_color_for_score s = "#FF4500" ∧
        plot_all_indicators_color s = "#FF4500") ∧
      (45 ≤ s → s < 55 →
        Cli.get_color_for_score s = "yellow" ∧
        Cli.get_emoji_for_score s = "\u00F0\u0178\u0178\u00A1" ∧
        App.get_color_for_score s = "#FFD700" ∧
        plot_all_indicators_color s = "#FFD700") ∧
      (55 ≤ s → s < 75 →
        Cli.get_color_for_score s = "green" ∧
        Cli.get_emoji_for_score s = "\u00F0\u0178\u0178\u00A2" ∧
        App.get_color_for_score s = "#32CD32" ∧
        plot_all_indicators_color s = "#90EE90") ∧
      (75 ≤ s →
        Cli.get_color_for_score s = "dark_green" ∧
        Cli.get_emoji_for_score s = "\u00F0\u0178\u2019\u0161" ∧
        App.get_color_for_score s = "#006400" ∧
        plot_all_indicators_color s = "#006400") := by
  intro s
  refine ⟨?_, ?_, ?_, ?_, ?_⟩ <;>
    (intros
     refine ⟨?_, ?_, ?_, ?_⟩ <;>
       (simp only [Cli.get_color_for_score, Cli.get_emoji_for_score,
                   App.get_color_for_score, plot_all_indicators_color];
        split_ifs <;> first | rfl | (exfalso; linarith)))

/-- Witness for C2 at the concrete score 72.3 (the spec's end-to-end
scenario: severity band greed). -/
theorem C2_severity_bands_witness :
    Cli.get_color_for_score (723/10) = "green" ∧
    Cli.get_emoji_for_score (723/10) = "\u00F0\u0178\u0178\u00A2" ∧
    App.get_color_for_score (723/10) = "#32CD32" ∧
    plot_all_indicators_color (723/10) = "#90EE90" :=
  (C2_severity_bands (723/10)).2.2.2.1 (by norm_num) (by norm_num)

/-! ## C4: the seven indicators -/

/-- C4: every successful build yields an indicator collection of length
exactly 7 bearing the 7 canonical names in the fixed canonical order; a
missing indicator sub-object yields the defaulted placeholder
indicator, never an absent slot; and the build depends on the raw
document only through key lookup, so entry order in the document is
irrelevant. -/
theorem C4_seven_indicators :
    (∀ (data : Json) (c : CompositeIndex),
      _load_fear_and_greed data = .ok c →
      (all_indicators c).length = 7 ∧
      (all_indicators c).map Indicator.name = canonicalNames ∧
      (Json.lookup? data "junk_bond_demand" = none →
        c.junk_bond_demand = defaultIndicator "Junk Bond Demand") ∧
      (Json.lookup? data "market_volatility_vix" = none →
        c.market_volatility = defaultIndicator "Market Volatility (VIX)") ∧
      (Json.lookup? data "put_call_options" = none →
        c.put_call_options = defaultIndicator "Put and Call Options") ∧
      (Json.lookup? data "market_momentum_sp500" = none →
        c.market_momentum = defaultIndicator "Market Momentum (S&P 500)") ∧
      (Json.lookup? data "stock_price_strength" = none →
        c.stock_price_strength = defaultIndicator "Stock Price Strength") ∧
      (Json.lookup? data "stock_price_breadth" = none →
        c.stock_price_breadth = defaultIndicator "Stock Price Breadth") ∧
      (Json.lookup? data "safe_haven_demand" = none →
        c.safe_haven_demand = defaultIndicator "Safe Haven Demand")) ∧
    (∀ e₁ e₂ : List (String × Json),
      (∀ k, e₁.lookup k = e₂.lookup k) →
      _load_fear_and_greed (.obj e₁) = _load_fear_and_greed (.obj e₂)) := by
  constructor
  · intro data c h
    have names := load_ok_names h
    obtain ⟨entries, fgE, hE, hdata, _, _, _, _, _, _, _, _, _, _,
            kj, km, kp, kmm, ks, kb, ksh⟩ := load_ok_inv h
    subst hdata
    refine ⟨names.1, names.2, ?_, ?_, ?_, ?_, ?_, ?_, ?_⟩ <;>
      intro hmiss <;> simp only [Json.lookup?] at hmiss
    · exact (Except.ok.inj ((loadIndicator_missing hmiss).symm.trans kj)).symm
    · exact (Except.ok.inj ((loadIndicator_missing hmiss).symm.trans km)).symm
    · exact (Except.ok.inj ((loadIndicator_missing hmiss).symm.trans kp)).symm
    · exact (Except.ok.inj ((loadIndicator_missing hmiss).symm.trans kmm)).symm
    · exact (Except.ok.inj ((loadIndicator_missing hmiss).symm.trans ks)).symm
    · exact (Except.ok.inj ((loadIndicator_missing hmiss).symm.trans kb)).symm
    · exact (Except.ok.inj ((loadIndicator_missing hmiss).symm.trans ksh)).symm
  · intro e₁ e₂ hk
    simp only [_load_fear_and_greed, loadIndicator, pyGet, ok_bind]
    simp only [hk]

/-- Witness for C4 on the empty raw document. -/
theorem C4_seven_indicators_witness :
    (all_indicators emptyDocSnapshot).map Indicator.name = canonicalNames ∧
    emptyDocSnapshot.junk_bond_demand = defaultIndicator "Junk Bond Demand" :=
  ⟨(C4_seven_indicators.1 (.obj []) emptyDocSnapshot rfl).2.1,
   (C4_seven_indicators.1 (.obj []) emptyDocSnapshot rfl).2.2.1 rfl⟩

/-! ## C5: defaults when "fear_and_greed" is missing -/

/-- C5 counterexample: a raw document that is a mapping and lacks the
`"fear_and_greed"` key on which the Model Builder nevertheless fails
(its `"fear_and_greed_historical"` value is a number, so `.get` raises
`AttributeError`), so the claim's universal statement over all such
mappings is false as stated. -/
theorem C5_missing_key_counterexample :
    (Json.obj [("fear_and_greed_historical", .num 5)]).isObj = true ∧
    Json.lookup? (.obj [("fear_and_greed_historical", .num 5)])
      "fear_and_greed" = none ∧
    _load_fear_and_greed (.obj [("fear_and_greed_historical", .num 5)]) =
      .error .attributeError :=
  ⟨rfl, rfl, rfl⟩

/-- C5 (amended): for every raw document that lacks the
`"fear_and_greed"` key and on which the Model Builder succeeds, the
snapshot has score 0.0, rating "N/A", all four previous-period scores
0.0, timestamp absent, and all 7 indicators present with the canonical
names — missing numeric fields default to 0.0 and missing strings to
"N/A", never to null. -/
theorem C5_missing_fear_greed_defaults :
    ∀ (data : Json) (c : CompositeIndex),
      _load_fear_and_greed data = .ok c →
      Json.lookup? data "fear_and_greed" = none →
      c.score = .num 0 ∧ c.rating = .str "N/A" ∧
      c.previous_close = .num 0 ∧ c.previous_1_week = .num 0 ∧
      c.previous_1_month = .num 0 ∧ c.previous_1_year = .num 0 ∧
      c.timestamp = none ∧
      (all_indicators c).length = 7 ∧
      (all_indicators c).map Indicator.name = canonicalNames := by
  intro data c h hmiss
  have names := load_ok_names h
  obtain ⟨entries, fgE, hE, hdata, hfgv, hs, hr, hpc, hw, hm, hy, hts, _, _,
          _, _, _, _, _, _, _⟩ := load_ok_inv h
  subst hdata
  simp only [Json.lookup?] at hmiss
  rw [hmiss, Option.getD_none] at hfgv
  have hfgE : fgE = [] := (Json.obj.inj hfgv).symm
  subst hfgE
  have hts0 : parseCompositeTimestamp
      ((([] : List (String × Json)).lookup "timestamp").getD .null) =
      .ok none := rfl
  refine ⟨?_, ?_, ?_, ?_, ?_, ?_, ?_, names.1, names.2⟩
  · simpa using hs
  · simpa using hr
  · simpa using hpc
  · simpa using hw
  · simpa using hm
  · simpa using hy
  · exact (Except.ok.inj (hts0.symm.trans hts)).symm
  
/-- Witness for C5 on the empty raw document. -/
theorem C5_missing_fear_greed_defaults_witness :
    emptyDocSnapshot.score = .num 0 ∧ emptyDocSnapshot.rating = .str "N/A" ∧
    emptyDocSnapshot.timestamp = none := by
  have h := C5_missing_fear_greed_defaults (.obj []) emptyDocSnapshot rfl rfl
  exact ⟨h.1, h.2.1, h.2.2.2.2.2.2.1⟩

/-! ## C7: historical-series round-trip -/

/-- C7: for every raw document whose
`"fear_and_greed_historical" → "data"` field is a list of points, a
successful build stores exactly those points, and reading the series
back with `get_historical_data` yields the same points in the same
order — no reordering, no dropping, no mutation. -/
theorem C7_historical_roundtrip :
    ∀ (data hj : Json) (pts : List Json) (c : CompositeIndex),
      _load_fear_and_greed data = .ok c →
      Json.lookup? data "fear_and_greed_historical" = some hj →
      Json.lookup? hj "data" = some (.arr pts) →
      c.historical_data = .arr pts ∧ get_historical_data c = .arr pts := by
  intro data hj pts c h hl1 hl2
  obtain ⟨entries, fgE, hE, hdata, _, _, _, _, _, _, _, _, hhv, hhd,
          _, _, _, _, _, _, _⟩ := load_ok_inv h
  subst hdata
  simp only [Json.lookup?] at hl1
  rw [hl1, Option.getD_some] at hhv
  subst hhv
  simp only [Json.lookup?] at hl2
  rw [hl2, Option.getD_some] at hhd
  exact ⟨hhd, hhd⟩

/-- Witness for C7 on a fabricated 3-point series. -/
theorem C7_historical_roundtrip_witness :
    get_historical_data threePointSnapshot = .arr [.num 1, .num 2, .num 3] :=
  (C7_historical_roundtrip
    (.obj [("fear_and_greed_historical",
            .obj [("data", .arr [.num 1, .num 2, .num 3])])])
    (.obj [("data", .arr [.num 1, .num 2, .num 3])])
    [.num 1, .num 2, .num 3] threePointSnapshot rfl rfl rfl).2

/-! ## C3: failure policy of the Model Builder -/

/-- A well-formed indicator timestamp makes `parseIndicatorTimestamp`
succeed. -/
theorem parseIndicatorTimestamp_ok_of_wf (t : Json)
    (h : wfIndicatorTimestamp t = true) :
    ∃ o, parseIndicatorTimestamp t = .ok o := by
  unfold wfIndicatorTimestamp at h
  unfold parseIndicatorTimestamp
  cases htr : t.truthy
  · exact ⟨none, by simp [htr]⟩
  · rw [htr] at h
    simp only [Bool.not_true, Bool.false_or] at h
    cases hq : t.toNumber? with
    | none => simp [hq] at h
    | some q =>
        simp only [hq] at h
        cases hf : pyFromtimestamp (q / 1000) with
        | ok dt => exact ⟨some dt, by simp [htr, hq, hf]⟩
        | error e => simp [hf] at h

/-- A well-formed composite timestamp makes `parseCompositeTimestamp`
succeed. -/
theorem parseCompositeTimestamp_ok_of_wf (t : Json)
    (h : wfTimestampStr t = true) :
    ∃ o, parseCompositeTimestamp t = .ok o := by
  unfold wfTimestampStr at h
  unfold parseCompositeTimestamp
  cases htr : t.truthy
  · exact ⟨none, by simp [htr]⟩
  · rw [htr] at h
    simp only [Bool.not_true, Bool.false_or] at h
    cases t with
    | str s =>
        obtain ⟨dt, hdt⟩ := Option.isSome_iff_exists.mp h
        exact ⟨some dt, by simp [htr, hdt]⟩
    | null => exact absurd h (by simp)
    | bool b => exact absurd h (by simp)
    | num q => exact absurd h (by simp)
    | arr elems => exact absurd h (by simp)
    | obj entries => exact absurd h (by simp)

/-- Inversion of `wfFearGreed`: the value (or its `{}` default) is an
object with a well-formed timestamp field. -/
theorem wfFearGreed_inv (o : Option Json) (h : wfFearGreed o = true) :
    ∃ fgE, o.getD (.obj []) = .obj fgE ∧
      wfTimestampStr ((fgE.lookup "timestamp").getD .null) = true := by
  cases o with
  | none => exact ⟨[], rfl, rfl⟩
  | some v =>
      cases v with
      | obj fgE => exact ⟨fgE, rfl, h⟩
      | null => exact absurd h (by simp [wfFearGreed])
      | bool b => exact absurd h (by simp [wfFearGreed])
      | num q => exact absurd h (by simp [wfFearGreed])
      | str s => exact absurd h (by simp [wfFearGreed])
      | arr elems => exact absurd h (by simp [wfFearGreed])

/-- Inversion of `wfHistorical`: the value (or its `{}` default) is an
object. -/
theorem wfHistorical_inv (o : Option Json) (h : wfHistorical o = true) :
    ∃ hE, o.getD (.obj []) = .obj hE := by
  cases o with
  | none => exact ⟨[], rfl⟩
  | some v =>
      cases v with
      | obj hE => exact ⟨hE, rfl⟩
      | null => exact absurd h (by simp [wfHistorical, Json.isObj])
      | bool b => exact absurd h (by simp [wfHistorical, Json.isObj])
      | num q => exact absurd h (by simp [wfHistorical, Json.isObj])
      | str s => exact absurd h (by simp [wfHistorical, Json.isObj])
      | arr elems => exact absurd h (by simp [wfHistorical, Json.isObj])

/-- A well-formed present indicator value makes `mkIndicator`
succeed. -/
theorem mkIndicator_ok_of_wf (n : String) (v : Json)
    (h : wfIndicator (some v) = true) : ∃ i, mkIndicator n v = .ok i := by
  simp only [wfIndicator] at h
  unfold mkIndicator
  cases htr : v.truthy
  · exact ⟨defaultIndicator n, by simp [htr]⟩
  · rw [htr] at h
    simp only [Bool.not_true, Bool.false_or] at h
    cases v with
    | obj es =>
        obtain ⟨o, ho⟩ := parseIndicatorTimestamp_ok_of_wf _ h
        exact ⟨⟨n, (es.lookup "score").getD (.num 0),
                (es.lookup "rating").getD (.str "N/A"), o,
                (es.lookup "data").getD (.arr [])⟩,
               by simp [htr, pyGet, ho]⟩
    | null => exact absurd h (by simp)
    | bool b => exact absurd h (by simp)
    | num q => exact absurd h (by simp)
    | str s => exact absurd h (by simp)
    | arr elems => exact absurd h (by simp)

/-- A well-formed (possibly missing) indicator entry makes
`loadIndicator` succeed. -/
theorem loadIndicator_ok_of_wf (entries : List (String × Json)) (key n : String)
    (h : wfIndicator (entries.lookup key) = true) :
    ∃ i, loadIndicator (.obj entries) key n = .ok i := by
  cases hl : entries.lookup key with
  | none => exact ⟨defaultIndicator n, loadIndicator_missing hl⟩
  | some v =>
      rw [hl] at h
      obtain ⟨i, hi⟩ := mkIndicator_ok_of_wf n v h
      refine ⟨i, ?_⟩
      unfold loadIndicator
      simp [pyGet, hl, hi]

/-- C3 counterexample: a raw document that IS a mapping on which the
Model Builder nevertheless fails, because a present sub-field is
malformed (`put_call_options` is a number, and `FearAndGreedIndicator`
calls `.get` on it) — so failure is not confined to non-mapping
documents. -/
theorem C3_failure_policy_counterexample :
    (Json.obj [("put_call_options", .num 7)]).isObj = true ∧
    _load_fear_and_greed (.obj [("put_call_options", .num 7)]) =
      .error .attributeError :=
  ⟨rfl, rfl⟩

/-- C3 (amended): the Model Builder never fails when sub-fields are
merely missing (all lookups may come up empty and defaults are used),
and it fails with the `AttributeError` standing for `SchemaError`
whenever the raw document is not a mapping at all; however it may also
fail on a document that IS a mapping when a present sub-field is
malformed — formally, on mappings it succeeds whenever every present
sub-field is well-formed (`wellFormedDoc`), a predicate that holds
vacuously for missing fields. -/
theorem C3_failure_policy :
    (∀ j : Json, j.isObj = false →
      _load_fear_and_greed j = .error .attributeError) ∧
    (∀ entries : List (String × Json), wellFormedDoc entries = true →
      ∃ c, _load_fear_and_greed (.obj entries) = .ok c) := by
  constructor
  · intro j hj
    cases j with
    | obj entries => exact absurd hj (by simp [Json.isObj])
    | null => rfl
    | bool b => rfl
    | num q => rfl
    | str s => rfl
    | arr elems => rfl
  · intro entries hwf
    simp only [wellFormedDoc, Bool.and_eq_true] at hwf
    obtain ⟨⟨⟨⟨⟨⟨⟨⟨hfg, hhist⟩, hi1⟩, hi2⟩, hi3⟩, hi4⟩, hi5⟩, hi6⟩, hi7⟩ := hwf
    obtain ⟨fgE, hfgE, hts⟩ := wfFearGreed_inv _ hfg
    obtain ⟨o, ho⟩ := parseCompositeTimestamp_ok_of_wf _ hts
    obtain ⟨hE, hhE⟩ := wfHistorical_inv _ hhist
    obtain ⟨j1, hj1⟩ := loadIndicator_ok_of_wf entries "junk_bond_demand"
      "Junk Bond Demand" hi1
    obtain ⟨j2, hj2⟩ := loadIndicator_ok_of_wf entries "market_volatility_vix"
      "Market Volatility (VIX)" hi2
    obtain ⟨j3, hj3⟩ := loadIndicator_ok_of_wf entries "put_call_options"
      "Put and Call Options" hi3
    obtain ⟨j4, hj4⟩ := loadIndicator_ok_of_wf entries "market_momentum_sp500"
      "Market Momentum (S&P 500)" hi4
    obtain ⟨j5, hj5⟩ := loadIndicator_ok_of_wf entries "stock_price_strength"
      "Stock Price Strength" hi5
    obtain ⟨j6, hj6⟩ := loadIndicator_ok_of_wf entries "stock_price_breadth"
      "Stock Price Breadth" hi6
    obtain ⟨j7, hj7⟩ := loadIndicator_ok_of_wf entries "safe_haven_demand"
      "Safe Haven Demand" hi7
    unfold _load_fear_and_greed
    simp only [pyGet, ok_bind]
    rw [hfgE]
    simp only [pyGet, ok_bind]
    rw [ho]
    simp only [ok_bind]
    rw [hhE]
    simp only [pyGet, ok_bind]
    rw [hj1]; simp only [ok_bind]
    rw [hj2]; simp only [ok_bind]
    rw [hj3]; simp only [ok_bind]
    rw [hj4]; simp only [ok_bind]
    rw [hj5]; simp only [ok_bind]
    rw [hj6]; simp only [ok_bind]
    rw [hj7]; simp only [ok_bind]
    exact ⟨_, rfl⟩

/-- Witness for C3 on a non-mapping document and on the empty
mapping. -/
theorem C3_failure_policy_witness :
    _load_fear_and_greed (.num 3) = .error .attributeError ∧
    ∃ c, _load_fear_and_greed (.obj []) = .ok c :=
  ⟨C3_failure_policy.1 (.num 3) rfl, C3_failure_policy.2 [] rfl⟩

/-! ## C6: fuzzy indicator lookup -/

/-- The scan loop of `get_indicator` is first-match search. -/
theorem findLoop_eq_find? (nl : String) (l : List Indicator) :
    Api.findLoop nl l = l.find? (fun i => pyIn nl (pyLower i.name)) := by
  induction l with
  | nil => rfl
  | cons a t ih =>
      by_cases h : pyIn nl (pyLower a.name) = true
      · simp [Api.findLoop, h, List.find?_cons_of_pos]
      · simp only [Bool.not_eq_true] at h
        simp [Api.findLoop, h, List.find?_cons_of_neg, ih]

/-- C6: fuzzy indicator lookup normalizes the query by lowercasing and
replacing underscores and hyphens with spaces, then returns the first
indicator (in the fixed 7-element order) whose canonical name contains
the normalized query as a case-insensitive substring; on the built
snapshot the query "vix" finds "Market Volatility (VIX)", and a query
matching nothing ("nonexistent_xyz") yields a not-found outcome (the
error response), not an exception. -/
theorem C6_fuzzy_lookup :
    (∀ (c : CompositeIndex) (q : String),
      Api.get_indicator c q =
        (all_indicators c).find?
          (fun i => pyIn (pyReplace (pyReplace (pyLower q) "_" " ") "-" " ")
            (pyLower i.name))) ∧
    (∀ c : CompositeIndex, _load_fear_and_greed (.obj []) = .ok c →
      (Api.get_indicator c "vix").map Indicator.name =
        some "Market Volatility (VIX)" ∧
      Api.get_indicator c "nonexistent_xyz" = none) := by
  constructor
  · intro c q
    unfold Api.get_indicator
    exact findLoop_eq_find? _ _
  · intro c hc
    have he : _load_fear_and_greed (.obj []) = .ok emptyDocSnapshot := rfl
    have hce : emptyDocSnapshot = c := Except.ok.inj (he.symm.trans hc)
    subst hce
    constructor
    · decide
    · have hm : (Api.get_indicator emptyDocSnapshot "nonexistent_xyz").map
          Indicator.name = none := by decide
      exact Option.map_eq_none'.mp hm

/-- Witness for C6 on the snapshot built from the empty document. -/
theorem C6_fuzzy_lookup_witness :
    (Api.get_indicator emptyDocSnapshot "vix").map Indicator.name =
      some "Market Volatility (VIX)" ∧
    Api.get_indicator emptyDocSnapshot "nonexistent_xyz" = none :=
  C6_fuzzy_lookup.2 emptyDocSnapshot rfl

/-! ## C9: composite timestamp parsing -/

/-- C9: the composite timestamp is parsed from the string with
`fromisoformat` only after the `"+00:00"` → `"+0000"` normalization
(and left absent when the field is absent/falsy), and a concrete
upstream-style timestamp ending in `"+00:00"` parses successfully
through the full builder rather than failing. -/
theorem C9_timestamp_parsing :
    (∀ (s : String) (dt : PyDateTime), s ≠ "" →
      fromisoformat (pyReplace s "+00:00" "+0000") = some dt →
      parseCompositeTimestamp (.str s) = .ok (some dt)) ∧
    (∀ s : String, s ≠ "" →
      fromisoformat (pyReplace s "+00:00" "+0000") = none →
      parseCompositeTimestamp (.str s) = .error .valueError) ∧
    parseCompositeTimestamp .null = .ok none ∧
    (∃ c, _load_fear_and_greed
        (.obj [("fear_and_greed",
                .obj [("timestamp", .str "2024-06-01T12:30:00+00:00")])]) =
          .ok c ∧
      c.timestamp = some (.civil 2024 6 1 12 30 0 (some 0))) := by
  refine ⟨?_, ?_, rfl, ⟨_, rfl, rfl⟩⟩
  · intro s dt hne hp
    simp [parseCompositeTimestamp, Json.truthy, hne, hp]
  · intro s hne hp
    simp [parseCompositeTimestamp, Json.truthy, hne, hp]

/-- Witness for C9 at a concrete `"+00:00"`-suffixed timestamp. -/
theorem C9_timestamp_parsing_witness :
    parseCompositeTimestamp (.str "2024-06-01T12:30:00+00:00") =
      .ok (some (.civil 2024 6 1 12 30 0 (some 0))) :=
  C9_timestamp_parsing.1 "2024-06-01T12:30:00+00:00"
    (.civil 2024 6 1 12 30 0 (some 0)) (by decide) (by decide)

/-! ## C8: fetch errors -/

/-- C8 counterexample: the claim says every non-2xx HTTP status fails
with a `TransportError`, but `response.raise_for_status()` raises only
for 4xx/5xx statuses: on a 304 response with a decodable body the fetch
returns the body successfully even though 304 is not a 2xx status. -/
theorem C8_fetch_non2xx_counterexample :
    ¬ (200 ≤ 304 ∧ 304 < 300) ∧
    _get_fear_greed_data (.response 304 (some (.obj []))) = .ok (.obj []) :=
  ⟨by omega, rfl⟩

/-- C8 (amended): the fetch makes a single HTTP GET with a 30-second
timeout and no retries; on a 4xx or 5xx HTTP status it fails with a
`TransportError` carrying the status code, on timeout or connection
failure it fails with a `TransportError` carrying the network cause,
and a timed-out fetch never yields a (partially built)
`CompositeIndex`. -/
theorem C8_fetch_errors :
    requestTimeoutSeconds = 30 ∧
    (∀ cause, _get_fear_greed_data (.failure cause) =
      .error (.transportNetwork cause)) ∧
    (∀ status body, 400 ≤ status → status < 600 →
      _get_fear_greed_data (.response status body) =
        .error (.transportStatus status)) ∧
    (∀ cause, mkCNNFearAndGreedIndex (.failure cause) =
      .error (.inl (.transportNetwork cause))) ∧
    (∀ status body, 400 ≤ status → status < 600 →
      mkCNNFearAndGreedIndex (.response status body) =
        .error (.inl (.transportStatus status))) := by
  refine ⟨rfl, fun cause => rfl, ?_, fun cause => rfl, ?_⟩
  · intro status body h1 h2
    simp only [_get_fear_greed_data, if_pos (And.intro h1 h2)]
  · intro status body h1 h2
    simp only [mkCNNFearAndGreedIndex, _get_fear_greed_data,
               if_pos (And.intro h1 h2)]

/-- Witness for C8 at a timeout and at status 502. -/
theorem C8_fetch_errors_witness :
    mkCNNFearAndGreedIndex (.failure .timeout) =
      .error (.inl (.transportNetwork .timeout)) ∧
    _get_fear_greed_data (.response 502 none) =
      .error (.transportStatus 502) :=
  ⟨C8_fetch_errors.2.2.2.1 .timeout,
   C8_fetch_errors.2.2.1 502 none (by omega) (by omega)⟩

/-! ## C10: history limiting -/

/-- C10: the history-limiting operations of the REST `/historical`
endpoint, the CLI `history --limit` command, and the MCP
`get_fear_greed_history` tool all slice the stored series as
`[-limit:]`; for every positive `n` this is the last `min(n, length)`
points in order, and for `limit = 0` it is the entire series, not an
empty one. -/
theorem C10_history_limit :
    (∀ (c : CompositeIndex) (xs : List Json) (n : ℤ),
      get_historical_data c = .arr xs →
      Api.get_historical c n = .ok (pyNegSlice n xs) ∧
      Cli.history_points c n = .ok (pyNegSlice n xs) ∧
      Mcp.get_fear_greed_history_points c n = .ok (pyNegSlice n xs)) ∧
    (∀ (xs : List Json) (n : ℤ), 0 < n →
      pyNegSlice n xs = xs.drop (xs.length - min n.toNat xs.length)) ∧
    (∀ xs : List Json, pyNegSlice 0 xs = xs) := by
  refine ⟨?_, ?_, ?_⟩
  · intro c xs n hc
    refine ⟨?_, ?_, ?_⟩ <;>
      simp only [Api.get_historical, Cli.history_points,
                 Mcp.get_fear_greed_history_points, hc]
  · intro xs n hn
    unfold pyNegSlice
    rw [if_pos (by omega : -n < 0)]
    congr 1
    omega
  · intro xs
    unfold pyNegSlice
    norm_num

/-- Witness for C10 on a concrete 3-point series and `n = 2`. -/
theorem C10_history_limit_witness :
    Api.get_historical threePointSnapshot 2 =
      .ok (pyNegSlice 2 [.num 1, .num 2, .num 3]) ∧
    pyNegSlice 2 [Json.num 1, Json.num 2, Json.num 3] =
      [Json.num 1, Json.num 2, Json.num 3].drop
        ([Json.num 1, Json.num 2, Json.num 3].length -
          min (Int.toNat 2) [Json.num 1, Json.num 2, Json.num 3].length) :=
  ⟨(C10_history_limit.1 threePointSnapshot [.num 1, .num 2, .num 3] 2 rfl).1,
   C10_history_limit.2.1 [.num 1, .num 2, .num 3] 2 (by omega)⟩

end FearGreed
